import Mathlib

/-!
Verification of the CUDAG dataset-generation core (`cudag/core/dataset.py`).

The Python code is shallowly embedded: the mutable shared `random.Random`
instance is modelled as an explicit state (`PyRandom`) threaded through every
operation, fallible code returns `Except`, and floats (split ratios,
held-out ratio) are modelled as rationals.
-/

/-- State of the seeded pseudo-random source.  Python's `random.Random(seed)`
is an external deterministic stream; it is modelled abstractly as a seed plus
a draw counter, with a fixed mixing function standing in for the generator.
What matters for the builder is that the stream is a deterministic function of
the seed and of the number of draws made so far. -/
structure PyRandom where
  seed : Nat
  counter : Nat
deriving DecidableEq, Repr

/-- Deterministic mixing function standing in for the generator core. -/
def rngMix (s c : Nat) : Nat :=
  (s * 6364136223846793005 + c * 1442695040888963407 + 1013904223) % 18446744073709551616

/-- Modelled from the spec: `rng.random()` draws one uniform value in `[0, 1)`
and advances the stream by one draw. -/
def randomUnit (r : PyRandom) : Rat × PyRandom :=
  ((rngMix r.seed r.counter % 1000000 : Nat) / (1000000 : Rat),
   ⟨r.seed, r.counter + 1⟩)

/-- Modelled from the spec: an integer draw uniform in `[0, n)`, advancing the
stream by one draw (used by `random.shuffle`). -/
def randBelow (r : PyRandom) (n : Nat) : Nat × PyRandom :=
  ((if n = 0 then 0 else rngMix r.seed r.counter % n),
   ⟨r.seed, r.counter + 1⟩)

/-- Swap two positions of a list (no-op when either index is out of bounds). -/
def listSwap (l : List α) (i j : Nat) : List α :=
  match l[i]?, l[j]? with
  | some a, some b => (l.set i b).set j a
  | _, _ => l

/-- One step of the Fisher-Yates loop body:
`j = randbelow(i + 1); x[i], x[j] = x[j], x[i]`. -/
def shuffleStep (r : PyRandom) (l : List α) (i : Nat) : List α × PyRandom :=
  let (j, r') := randBelow r (i + 1)
  (listSwap l i j, r')

/-- Run the Fisher-Yates body over a list of indices. -/
def shuffleGo (l : List α) (r : PyRandom) : List Nat → List α × PyRandom
  | [] => (l, r)
  | i :: is =>
    let (l', r') := shuffleStep r l i
    shuffleGo l' r' is

/-- Modelled from the spec: `random.shuffle(x)` is the external Fisher-Yates
loop `for i in reversed(range(1, len(x))): j = randbelow(i + 1); swap x[i] x[j]`,
consuming one draw per index, here as a pure function of the list and the
stream state. -/
def pyShuffle (l : List α) (r : PyRandom) : List α × PyRandom :=
  shuffleGo l r (List.range' 1 (l.length - 1)).reverse

/-! ## Coordinate transform

`cudag.core.coords` is not under `src/`; only its import surface
(`normalize_coord`, `pixel_from_normalized`, `RU_MAX`) is visible. -/

/-- Modelled from the spec: the fixed normalized coordinate range is
`[0, RU_MAX]`; the system prompt describes a 1000x1000 normalized space. -/
def RU_MAX : Nat := 1000

/-- Modelled from the spec: one axis of `normalize_coord` — scale the pixel
axis by `RU_MAX / dimension`, round to nearest integer, clamp into
`[0, RU_MAX]`; never raises on out-of-bounds input. -/
def normAxis (p : Int) (d : Nat) : Int :=
  max 0 (min (RU_MAX : Int) (round ((p : Rat) * (RU_MAX : Rat) / (d : Rat))))

/-- Modelled from the spec: `normalize_coord(pixel, image_size)` applies the
axis transform to x with the width and to y with the height. -/
def normalize_coord (p : Int × Int) (size : Nat × Nat) : Int × Int :=
  (normAxis p.1 size.1, normAxis p.2 size.2)

/-- Modelled from the spec: one axis of the inverse transform — scale a
normalized value by `dimension / RU_MAX` and round to nearest pixel. -/
def denormAxis (ru : Int) (d : Nat) : Int :=
  round ((ru : Rat) * (d : Rat) / (RU_MAX : Rat))

/-- Modelled from the spec: `pixel_from_normalized(ru, image_size)` is the
axis-wise inverse scale with rounding. -/
def pixel_from_normalized (p : Int × Int) (size : Nat × Nat) : Int × Int :=
  (denormAxis p.1 size.1, denormAxis p.2 size.2)


/-! ## Data model (`cudag/core/dataset.py` and the task contract) -/

/-- Structured action descriptor: the `to_dict()` image of a `ToolCall`
(`name` is fixed to the computer-use tool; `arguments` hold the action name,
an optional coordinate, and any further arguments). -/
structure ToolCall where
  action : String
  coordinate : Option (Int × Int)
  extraArgs : List (String × String)
deriving DecidableEq, Repr

/-- Modelled from the spec: `cudag.prompts.tools.format_tool_call` is not
under `src/`; per the tool-call grammar shown in the system prompt it renders
the call as a `<tool_call>` block around a JSON object, deterministically. -/
def format_tool_call (tc : ToolCall) : String :=
  let coordPart :=
    match tc.coordinate with
    | some (x, y) => ", \"coordinate\": [" ++ toString x ++ ", " ++ toString y ++ "]"
    | none => ""
  let extraPart := String.join (tc.extraArgs.map (fun kv =>
    ", \"" ++ kv.1 ++ "\": \"" ++ kv.2 ++ "\""))
  "<tool_call>\n\x7b\"name\": \"computer_use\", \"arguments\": \x7b\"action\": \""
    ++ tc.action ++ "\"" ++ coordPart ++ extraPart ++ "\x7d\x7d\n</tool_call>"

/-- One training record candidate returned by a task collaborator.  The
metadata dict is modelled as its `task_type` entry (optional) plus the
remaining key-value pairs. -/
structure TaskSample where
  id : String
  imagePath : String
  imageSize : Nat × Nat
  pixelCoords : Option (Int × Int)
  toolCall : ToolCall
  humanPrompt : String
  metaTaskType : Option String
  metaRest : List (String × String)
deriving DecidableEq, Repr

/-- Test-case tolerance as carried by a `TestCase`: a pair or a scalar. -/
inductive Tol where
  | pair (x y : Int)
  | scalar (v : Int)
deriving DecidableEq, Repr

/-- Evaluation-time analogue of a sample, returned by `generate_tests`. -/
structure TestCase where
  testId : String
  screenshot : String
  prompt : String
  expectedAction : ToolCall
  pixelCoords : Option (Int × Int)
  tolerance : Tol
  metaImageSize : Option (Nat × Nat)
  metaRest : List (String × String)
deriving DecidableEq, Repr

/-- JSONL record produced by `DatasetBuilder._to_record`. -/
structure Record where
  id : String
  image : String
  humanValue : String
  gptValue : String
  taskType : String
  realCoords : Int × Int
  metaRest : List (String × String)
deriving DecidableEq, Repr

/-- Record produced by `DatasetBuilder._test_to_record` for `test.json`. -/
structure TestRecord where
  testId : String
  screenshot : String
  prompt : String
  expectedAction : ToolCall
  tolerance : List Int
  realCoords : Option (Int × Int)
  metaImageSize : Option (Nat × Nat)
  metaRest : List (String × String)
deriving DecidableEq, Repr

/-- Errors raised by the builder: `ValueError` for an unknown task type,
`TypeError` from converting an absent coordinate pair, `ValueError` from
`Path.relative_to` on a path outside the active root. -/
inductive BuildError where
  | unknownTaskType (ty : String)
  | missingPixelCoords (id : String)
  | pathOutsideRoot (p : String)
deriving DecidableEq, Repr

/-- Configuration for dataset generation (`DatasetConfig`).  Field spelling
follows the source up to Lean-side renaming of a few identifiers; floats are
rationals and `output_dir` is a plain path string (resolved before the
builder runs). -/
structure DatasetConfig where
  namePref : String
  seed : Nat
  taskCounts : List (String × Nat)
  trainSplit : Rat
  systemPrompt : String
  outputDir : String
  imageFormat : String
  imageQuality : Nat
  heldOutEnabled : Bool
  heldOutFrac : Rat
  testCount : Nat
  testTolerance : Int × Int
  annotFrac : Rat
  annotEnabled : Bool
deriving DecidableEq, Repr

/-- Per-call context handed to a task (`TaskContext`); the shared RNG is
threaded separately as explicit state. -/
structure TaskContext where
  index : Nat
  outputDir : String
  taskConfig : String
  datasetName : String
deriving DecidableEq, Repr

/-- Task collaborator contract: identity, own configuration, and the
generation entry points, written in state-passing style over the shared
random stream. -/
structure BaseTask where
  taskType : String
  config : String
  generateSamples : TaskContext → PyRandom → List TaskSample × PyRandom
  generateTests : TaskContext → PyRandom → List TestCase × PyRandom

instance : Inhabited BaseTask :=
  ⟨⟨"", "", fun _ r => ([], r), fun _ r => ([], r)⟩⟩

/-- Lookup in the builder's task dict `{t.task_type: t for t in tasks}`
(a later task with the same type shadows an earlier one). -/
def findTask (tasks : List BaseTask) (ty : String) : Option BaseTask :=
  tasks.reverse.find? (fun t => t.taskType == ty)

/-- Character-list prefix test on path strings. -/
def strStartsWith (p s : String) : Bool :=
  p.data.isPrefixOf s.data

/-- Python's `Path.relative_to`: strip the root, or fail when the path does
not lie under the root. -/
def relUnder (root p : String) : Option String :=
  if strStartsWith (root ++ "/") p then some (p.drop (root ++ "/").length) else none

/-! ## `DatasetBuilder` — primary build -/

/-- Embedding of `DatasetBuilder._to_record`: normalize the pixel coordinates
(raising when the sample carries none), replace the tool-call coordinate when
one is present, format the assistant turn, relativize the image path
(raising when it is outside the output root), and assemble the record. -/
def toRecord (cfg : DatasetConfig) (s : TaskSample) : Except BuildError Record :=
  match s.pixelCoords with
  | none => .error (.missingPixelCoords s.id)
  | some pc =>
    let normCoord := normalize_coord pc s.imageSize
    let toolCallDict :=
      if s.toolCall.coordinate.isSome then
        { s.toolCall with coordinate := some normCoord }
      else s.toolCall
    let gptValue := format_tool_call toolCallDict
    match relUnder cfg.outputDir s.imagePath with
    | none => .error (.pathOutsideRoot s.imagePath)
    | some imageRel =>
      .ok { id := s.id
            image := imageRel
            humanValue := "<image>\n" ++ s.humanPrompt
            gptValue := gptValue
            taskType := s.metaTaskType.getD "unknown"
            realCoords := pc
            metaRest := s.metaRest }

/-- Held-out routing decision for one record, from `build()`:
`if self.config.held_out_enabled and self.rng.random() < self.config.held_out_ratio`.
The draw happens exactly when held-out sampling is enabled (Python `and`
short-circuits), and then happens whatever the comparison outcome. -/
def routeRecord (cfg : DatasetConfig) (r : PyRandom) : Bool × PyRandom :=
  if cfg.heldOutEnabled then
    (decide ((randomUnit r).1 < cfg.heldOutFrac), (randomUnit r).2)
  else (false, r)

/-- Inner loop of `build()` over the samples returned by one generation call:
convert each to a record and route it to the held-out or the main list. -/
def processSamples (cfg : DatasetConfig) :
    List TaskSample → PyRandom → List Record → List Record →
    Except BuildError (List Record × List Record × PyRandom)
  | [], r, samples, heldOut => .ok (samples, heldOut, r)
  | s :: rest, r, samples, heldOut =>
    match toRecord cfg s with
    | .error e => .error e
    | .ok record =>
      if (routeRecord cfg r).1 then
        processSamples cfg rest (routeRecord cfg r).2 samples (heldOut ++ [record])
      else
        processSamples cfg rest (routeRecord cfg r).2 (samples ++ [record]) heldOut

/-- Middle loop of `build()`: invoke one task's `generate_samples` `count`
times, each with a fresh context carrying the next `index`, flattening the
1:N results through `processSamples`. -/
def runTask (cfg : DatasetConfig) (task : BaseTask) :
    Nat → Nat → PyRandom → List Record → List Record →
    Except BuildError (List Record × List Record × PyRandom × Nat)
  | 0, index, r, samples, heldOut => .ok (samples, heldOut, r, index)
  | n + 1, index, r, samples, heldOut =>
    let ctx : TaskContext :=
      { index := index, outputDir := cfg.outputDir
        taskConfig := task.config, datasetName := cfg.namePref }
    let res := task.generateSamples ctx r
    match processSamples cfg res.1 res.2 samples heldOut with
    | .error e => .error e
    | .ok (samples', heldOut', r2) => runTask cfg task n (index + 1) r2 samples' heldOut'

/-- Outer loop of `build()` over `config.task_counts` in declared order,
raising `ValueError` at the first unknown task type. -/
def runTaskCounts (cfg : DatasetConfig) (tasks : List BaseTask) :
    List (String × Nat) → Nat → PyRandom → List Record → List Record →
    Except BuildError (List Record × List Record × PyRandom × Nat)
  | [], index, r, samples, heldOut => .ok (samples, heldOut, r, index)
  | (ty, count) :: rest, index, r, samples, heldOut =>
    match findTask tasks ty with
    | none => .error (.unknownTaskType ty)
    | some task =>
      match runTask cfg task count index r samples heldOut with
      | .error e => .error e
      | .ok (samples', heldOut', r', index') =>
        runTaskCounts cfg tasks rest index' r' samples' heldOut'

/-- Embedding of `DatasetBuilder._write_splits`: shuffle a copy of the main
sample list with the shared RNG and split at
`int(len(shuffled) * train_split)` — first slice train, rest val. -/
def writeSplits (cfg : DatasetConfig) (r : PyRandom) (samples : List Record) :
    List Record × List Record × PyRandom :=
  let shuffled := (pyShuffle samples r).1
  let splitIdx := ⌊(shuffled.length : Rat) * cfg.trainSplit⌋.toNat
  (shuffled.take splitIdx, shuffled.drop splitIdx, (pyShuffle samples r).2)

/-- Contents of the files written by `build()`.  `heldOutJsonl = none` models
`held_out.jsonl` not being written (it is written only when non-empty). -/
structure BuildOutput where
  dataJsonl : List Record
  trainJsonl : List Record
  valJsonl : List Record
  heldOutJsonl : Option (List Record)
deriving DecidableEq, Repr

/-- The builder after `DatasetBuilder.__init__`: configuration, task list,
and the RNG seeded exactly once from `config.seed`. -/
structure DatasetBuilder where
  config : DatasetConfig
  tasks : List BaseTask
  rng : PyRandom

/-- Embedding of `DatasetBuilder.__init__`. -/
def mkBuilder (cfg : DatasetConfig) (tasks : List BaseTask) : DatasetBuilder :=
  { config := cfg, tasks := tasks, rng := ⟨cfg.seed, 0⟩ }

/-- Embedding of `DatasetBuilder.build()`: run the generation loops, write
`data.jsonl` (main plus held-out, in that order), split the main list into
`train.jsonl`/`val.jsonl`, and write `held_out.jsonl` only if non-empty.
An `Except.error` result models the exception propagating before any of the
data files is written. -/
def DatasetBuilder.build (b : DatasetBuilder) : Except BuildError BuildOutput :=
  match runTaskCounts b.config b.tasks b.config.taskCounts 0 b.rng [] [] with
  | .error e => .error e
  | .ok (samples, heldOut, r, _) =>
    .ok { dataJsonl := samples ++ heldOut
          trainJsonl := (writeSplits b.config r samples).1
          valJsonl := (writeSplits b.config r samples).2.1
          heldOutJsonl := if heldOut.isEmpty then none else some heldOut }

/-- JSON rendering of one record, as a fixed byte string
(`json.dumps` on the record dict, one compact object per line). -/
def recordJson (r : Record) : String :=
  "\x7b\"id\": \"" ++ r.id ++ "\", \"image\": \"" ++ r.image
    ++ "\", \"conversations\": [\x7b\"from\": \"human\", \"value\": \"" ++ r.humanValue
    ++ "\"\x7d, \x7b\"from\": \"gpt\", \"value\": \"" ++ r.gptValue
    ++ "\"\x7d], \"metadata\": \x7b\"task_type\": \"" ++ r.taskType
    ++ "\", \"real_coords\": [" ++ toString r.realCoords.1 ++ ", "
    ++ toString r.realCoords.2 ++ "]"
    ++ String.join (r.metaRest.map (fun kv => ", \"" ++ kv.1 ++ "\": \"" ++ kv.2 ++ "\""))
    ++ "\x7d\x7d"

/-- Byte contents of a JSONL file: one rendered record plus newline per line
(`DatasetBuilder._write_jsonl`). -/
def jsonlBytes (records : List Record) : String :=
  String.join (records.map (fun r => recordJson r ++ "\n"))

/-! ## `DatasetBuilder` — test generation -/

/-- Embedding of `_parse_tolerance` inputs: the YAML value can be an
integer, a list of integers, or null. -/
inductive TolValue where
  | int (v : Int)
  | list (l : List Int)
  | null
deriving DecidableEq, Repr

/-- Embedding of `_parse_tolerance`: an `int` becomes `(v, v)`; any other
value is passed to `tuple(...)`, which succeeds on every list (whatever its
length, unvalidated) and raises `TypeError` on a non-iterable such as null.
The result is kept as the list of components. -/
def parseTolerance : TolValue → Except String (List Int)
  | .int v => .ok [v, v]
  | .list l => .ok l
  | .null => .error "TypeError: argument of type NoneType is not iterable"

/-- Embedding of `DatasetBuilder._test_to_record`: take the image size from
metadata (default 1920x1080), replace the expected-action coordinate by its
normalized value (preferring the explicit `pixel_coords` override),
relativize the screenshot against the test directory (raising when outside),
and normalize the tolerance to a two-element list. -/
def testToRecord (tc : TestCase) (testDir : String) : Except BuildError TestRecord :=
  let imageSize := tc.metaImageSize.getD (1920, 1080)
  let expectedAction :=
    match tc.expectedAction.coordinate with
    | none => tc.expectedAction
    | some c =>
      let pc := match tc.pixelCoords with
        | some p => p
        | none => c
      { tc.expectedAction with coordinate := some (normalize_coord pc imageSize) }
  match relUnder testDir tc.screenshot with
  | none => .error (.pathOutsideRoot tc.screenshot)
  | some rel =>
    let tol := match tc.tolerance with
      | .pair x y => [x, y]
      | .scalar v => [v, v]
    .ok { testId := tc.testId
          screenshot := rel
          prompt := tc.prompt
          expectedAction := expectedAction
          tolerance := tol
          realCoords := tc.pixelCoords
          metaImageSize := tc.metaImageSize
          metaRest := tc.metaRest }

/-- Inner loop of `build_tests()` over one batch: accept returned items until
the running total reaches `test_count`; items beyond the target are
discarded by the break. -/
def appendTests (cfg : DatasetConfig) (testDir : String) :
    List TestCase → List TestRecord → List TestCase →
    Except BuildError (List TestRecord × List TestCase)
  | [], recs, raws => .ok (recs, raws)
  | tc :: rest, recs, raws =>
    if cfg.testCount ≤ recs.length then .ok (recs, raws)
    else
      match testToRecord tc testDir with
      | .error e => .error e
      | .ok record => appendTests cfg testDir rest (recs ++ [record]) (raws ++ [tc])

/-- The `while len(test_cases) < test_count` loop of `build_tests()`:
round-robin over the active task types, resuming from where it left off
(`task_idx` only ever increments).  `fuel` bounds the number of outer
iterations still allowed; `none` means the loop did not finish within the
fuel. -/
def buildTestsLoop (cfg : DatasetConfig) (tasks : List BaseTask)
    (taskTypes : List String) (testDir : String) :
    Nat → Nat → Nat → PyRandom → List TestRecord → List TestCase →
    Option (Except BuildError (List TestRecord × List TestCase × PyRandom))
  | fuel, index, taskIdx, r, recs, raws =>
    if recs.length < cfg.testCount then
      match fuel with
      | 0 => none
      | fuel' + 1 =>
        let ty := taskTypes.getD (taskIdx % taskTypes.length) ""
        let task := (findTask tasks ty).getD default
        let ctx : TaskContext :=
          { index := index, outputDir := testDir
            taskConfig := task.config, datasetName := cfg.namePref }
        match appendTests cfg testDir (task.generateTests ctx r).1 recs raws with
        | .error e => some (.error e)
        | .ok (recs', raws') =>
          buildTestsLoop cfg tasks taskTypes testDir fuel' (index + 1) (taskIdx + 1)
            (task.generateTests ctx r).2 recs' raws'
    else some (.ok (recs, raws, r))

/-- Annotation index selection from `build_tests()`:
`annotation_count = max(1, int(n * annotation_ratio))` followed by
`range(0, n, max(1, n // annotation_count))`. -/
def annotIndices (n : Nat) (frac : Rat) : List Nat :=
  let annotCount := max 1 ⌊(n : Rat) * frac⌋.toNat
  let step := max 1 (n / annotCount)
  (List.range ((n + step - 1) / step)).map (· * step)

/-- Annotated-image output paths produced by the annotation phase of
`build_tests()`: for each selected index still within range, the annotated
copy is saved to `annotated/<test_id>_annotated.png` under the test
directory, a fresh path distinct from the original screenshot. -/
def annotSelection (cfg : DatasetConfig) (testDir : String)
    (raws : List TestCase) (nRecs : Nat) : List String :=
  if cfg.annotEnabled ∧ 0 < cfg.annotFrac then
    (annotIndices nRecs cfg.annotFrac).filterMap (fun idx =>
      match raws[idx]? with
      | some tc => some (testDir ++ "/annotated/" ++ tc.testId ++ "_annotated.png")
      | none => none)
  else []

/-- Result of `build_tests()`: the records of `test.json`, whether
`test.json` was written at all (it is not when no configured task type is
known), and the annotated image paths. -/
structure TestsOutput where
  testRecords : List TestRecord
  testJsonWritten : Bool
  annotatedPaths : List String
deriving DecidableEq, Repr

/-- Embedding of `DatasetBuilder.build_tests()`: filter `task_counts` down to
known task types and return immediately when none is left (without writing
`test.json`); otherwise run the round-robin loop and the annotation phase.
`none` models the loop not terminating within `fuel` outer iterations. -/
def DatasetBuilder.buildTests (b : DatasetBuilder) (fuel : Nat) :
    Option (Except BuildError TestsOutput) :=
  let cfg := b.config
  let testDir := cfg.outputDir ++ "/test"
  let taskTypes :=
    (cfg.taskCounts.map Prod.fst).filter (fun ty => (findTask b.tasks ty).isSome)
  if taskTypes.isEmpty then
    some (.ok { testRecords := [], testJsonWritten := false, annotatedPaths := [] })
  else
    match buildTestsLoop cfg b.tasks taskTypes testDir fuel 0 0 b.rng [] [] with
    | none => none
    | some (.error e) => some (.error e)
    | some (.ok (recs, raws, _)) =>
      some (.ok { testRecords := recs
                  testJsonWritten := true
                  annotatedPaths := annotSelection cfg testDir raws recs.length })

deriving instance DecidableEq for Except

/-! ## Projection helpers (used to state closed facts about build results) -/

/-- Held-out file contents of a finished build (`none` also when the build
raised, since then no file at all is written). -/
def heldOutFileOf (b : DatasetBuilder) : Option (List Record) :=
  match b.build with
  | .ok o => o.heldOutJsonl
  | .error _ => none

/-- Lengths `(|data.jsonl|, |train.jsonl|, |val.jsonl|)` of a finished build. -/
def buildLens (b : DatasetBuilder) : Option (Nat × Nat × Nat) :=
  match b.build with
  | .ok o => some (o.dataJsonl.length, o.trainJsonl.length, o.valJsonl.length)
  | .error _ => none

/-- Test ids of a finished `build_tests` run, in emission order. -/
def testIdsOf (res : Option (Except BuildError TestsOutput)) : List String :=
  match res with
  | some (.ok o) => o.testRecords.map TestRecord.testId
  | _ => []

/-- Record count and whether `test.json` was written, for a finished
`build_tests` run. -/
def testLenOf (res : Option (Except BuildError TestsOutput)) : Option (Nat × Bool) :=
  match res with
  | some (.ok o) => some (o.testRecords.length, o.testJsonWritten)
  | _ => none

/-- Annotated-image paths of a finished `build_tests` run. -/
def annotPathsOf (res : Option (Except BuildError TestsOutput)) : List String :=
  match res with
  | some (.ok o) => o.annotatedPaths
  | _ => []

/-! ## Concrete fixtures -/

/-- Baseline configuration used by the concrete instances. -/
def cfgBase : DatasetConfig :=
  { namePref := "calendar"
    seed := 42
    taskCounts := [("click-day", 2)]
    trainSplit := mkRat 4 5
    systemPrompt := "compact"
    outputDir := "out"
    imageFormat := "png"
    imageQuality := 95
    heldOutEnabled := false
    heldOutFrac := mkRat 1 10
    testCount := 100
    testTolerance := (10, 10)
    annotFrac := mkRat 1 10
    annotEnabled := true }

/-- Deterministic sample produced by the `click-day` fixture task. -/
def sampleA (i : Nat) : TaskSample :=
  { id := "click-day-" ++ toString i
    imagePath := "out/images/a.png"
    imageSize := (1920, 1080)
    pixelCoords := some (960, 540)
    toolCall := { action := "left_click", coordinate := some (960, 540), extraArgs := [] }
    humanPrompt := "Click the day"
    metaTaskType := some "click-day"
    metaRest := [] }

/-- Deterministic test case produced by the `click-day` fixture task. -/
def tcA : TestCase :=
  { testId := "a"
    screenshot := "out/test/images/a.png"
    prompt := "Click the day"
    expectedAction := { action := "left_click", coordinate := some (960, 540), extraArgs := [] }
    pixelCoords := some (960, 540)
    tolerance := .pair 10 10
    metaImageSize := some (1920, 1080)
    metaRest := [] }

/-- Deterministic test case produced by the `click-month` fixture task. -/
def tcB : TestCase :=
  { tcA with testId := "b", screenshot := "out/test/images/b.png" }

/-- Fixture task of type `click-day`: one sample and one test case per call,
consuming no randomness. -/
def taskA : BaseTask :=
  { taskType := "click-day"
    config := "cfg-a"
    generateSamples := fun ctx r => ([sampleA ctx.index], r)
    generateTests := fun _ r => ([tcA], r) }

/-- Fixture task of type `click-month`: one test case per call. -/
def taskB : BaseTask :=
  { taskType := "click-month"
    config := "cfg-b"
    generateSamples := fun _ r => ([], r)
    generateTests := fun _ r => ([tcB], r) }

/-- Fixture sample with no pixel coordinates (a non-pointing action, which
the data model allows). -/
def sampleBad : TaskSample :=
  { id := "bad-0"
    imagePath := "out/images/bad.png"
    imageSize := (1920, 1080)
    pixelCoords := none
    toolCall := { action := "key", coordinate := none, extraArgs := [("text", "Return")] }
    humanPrompt := "Press enter"
    metaTaskType := some "press-key"
    metaRest := [] }

/-- Fixture task whose samples all lack pixel coordinates. -/
def taskBad : BaseTask :=
  { taskType := "press-key"
    config := "cfg-bad"
    generateSamples := fun _ r => ([sampleBad], r)
    generateTests := fun _ r => ([], r) }

/-- Baseline configuration with held-out sampling enabled at ratio 0. -/
def cfgH0 : DatasetConfig :=
  { cfgBase with heldOutEnabled := true, heldOutFrac := 0 }

/-- Configuration whose second quota entry names an unknown task type. -/
def cfg6 : DatasetConfig :=
  { cfgBase with taskCounts := [("click-day", 1), ("nope", 1)] }

/-- Baseline configuration altered only in fields `build()` does not read. -/
def cfgBase2 : DatasetConfig :=
  { cfgBase with testCount := 7, annotEnabled := false, imageFormat := "jpg" }

/-- Configuration whose only quota entry names an unknown task type. -/
def cfgNope : DatasetConfig :=
  { cfgBase with taskCounts := [("nope", 3)] }

/-- Configuration for the round-robin test generation instance: two task
types, ten test cases. -/
def cfgT : DatasetConfig :=
  { cfgBase with taskCounts := [("click-day", 2), ("click-month", 3)], testCount := 10 }

/-- Generic fixture record (used to exercise the splitting code). -/
def recW (i : Nat) : Record :=
  { id := toString i
    image := "images/w.png"
    humanValue := "h"
    gptValue := "g"
    taskType := "t"
    realCoords := (0, 0)
    metaRest := [] }

/-! ## Claim theorems -/

theorem randomUnit_nonneg (r : PyRandom) : 0 ≤ (randomUnit r).1 := by
  unfold randomUnit
  positivity

theorem length_listSwap (l : List α) (i j : Nat) :
    (listSwap l i j).length = l.length := by
  unfold listSwap
  rcases h1 : l[i]? with _ | a <;> rcases h2 : l[j]? with _ | b <;> simp

theorem length_shuffleGo (is : List Nat) :
    ∀ (l : List α) (r : PyRandom), (shuffleGo l r is).1.length = l.length := by
  induction is with
  | nil => intro l r; rfl
  | cons i is ih =>
    intro l r
    simp only [shuffleGo, shuffleStep]
    rw [ih]
    exact length_listSwap ..

theorem length_pyShuffle (l : List α) (r : PyRandom) :
    (pyShuffle l r).1.length = l.length :=
  length_shuffleGo _ l r


/-- C8 (counterexample): a malformed tolerance shape is not, in general, a
fatal configuration error — `_parse_tolerance` hands a three-element list to
`tuple(...)`, which silently yields a three-element tuple. -/
theorem parseTolerance_list3_not_fatal :
    parseTolerance (.list [1, 2, 3]) = .ok [1, 2, 3] := rfl

/-- C8 (amended): `_parse_tolerance` maps an integer `v` to `(v, v)` and any
list to the tuple of its components unvalidated (a two-element list hence to
its pair); a non-iterable value such as null raises a `TypeError` at load,
but a list of the wrong length is passed through without error. -/
theorem parseTolerance_amended :
    (∀ v : Int, parseTolerance (.int v) = .ok [v, v]) ∧
    (∀ x y : Int, parseTolerance (.list [x, y]) = .ok [x, y]) ∧
    parseTolerance .null
      = .error "TypeError: argument of type NoneType is not iterable" :=
  ⟨fun _ => rfl, fun _ _ => rfl, rfl⟩

/-- C9: `_to_record` presupposes present pixel coordinates: on a sample with
`pixel_coords = None` it raises instead of producing a record, and hence so
does `build()` (shown on a concrete builder whose task yields such a
sample). -/
theorem toRecord_requires_pixel_coords (cfg : DatasetConfig) (s : TaskSample)
    (h : s.pixelCoords = none) :
    toRecord cfg s = .error (.missingPixelCoords s.id) ∧
    (mkBuilder { cfgBase with taskCounts := [("press-key", 1)] } [taskBad]).build
      = .error (.missingPixelCoords "bad-0") := by
  constructor
  · unfold toRecord
    rw [h]
  · with_unfolding_all decide

/-- C9 witness: the fixture sample with absent coordinates. -/
theorem toRecord_requires_pixel_coords_witness :
    sampleBad.pixelCoords = none ∧
    (toRecord cfgBase sampleBad = .error (.missingPixelCoords sampleBad.id) ∧
      (mkBuilder { cfgBase with taskCounts := [("press-key", 1)] } [taskBad]).build
        = .error (.missingPixelCoords "bad-0")) :=
  ⟨rfl, toRecord_requires_pixel_coords cfgBase sampleBad rfl⟩

/-- C2: `_write_splits` splits the shuffled copy at
`floor(len(samples) * train_split)` — first slice to `train.jsonl`, the
remainder to `val.jsonl` — so the two parts cover all samples and the train
part has exactly the floor length. -/
theorem writeSplits_spec (cfg : DatasetConfig) (r : PyRandom) (samples : List Record)
    (h0 : 0 ≤ cfg.trainSplit) (h1 : cfg.trainSplit ≤ 1) :
    (writeSplits cfg r samples).1 =
      ((pyShuffle samples r).1).take ⌊(samples.length : Rat) * cfg.trainSplit⌋.toNat ∧
    (writeSplits cfg r samples).2.1 =
      ((pyShuffle samples r).1).drop ⌊(samples.length : Rat) * cfg.trainSplit⌋.toNat ∧
    (writeSplits cfg r samples).1.length + (writeSplits cfg r samples).2.1.length
      = samples.length ∧
    (writeSplits cfg r samples).1.length
      = ⌊(samples.length : Rat) * cfg.trainSplit⌋.toNat := by
  have hlen : (pyShuffle samples r).1.length = samples.length := length_pyShuffle samples r
  have hk : ⌊(samples.length : Rat) * cfg.trainSplit⌋.toNat ≤ samples.length := by
    have hle : ((samples.length : Rat)) * cfg.trainSplit ≤ ((samples.length : Rat)) := by
      calc ((samples.length : Rat)) * cfg.trainSplit
          ≤ ((samples.length : Rat)) * 1 := by
            exact mul_le_mul_of_nonneg_left h1 (by positivity)
        _ = ((samples.length : Rat)) := mul_one _
    have hfl := Int.floor_le_floor hle
    rw [Int.floor_natCast] at hfl
    omega
  refine ⟨by simp [writeSplits, hlen], by simp [writeSplits, hlen], ?_, ?_⟩
  · simp only [writeSplits, hlen, List.length_take, List.length_drop]
    omega
  · simp only [writeSplits, hlen, List.length_take]
    omega

/-- C2 witness: the 4/5 split of three concrete records. -/
theorem writeSplits_spec_witness :
    0 ≤ cfgBase.trainSplit ∧ cfgBase.trainSplit ≤ 1 ∧
    ((writeSplits cfgBase ⟨42, 0⟩ [recW 0, recW 1, recW 2]).1.length +
        (writeSplits cfgBase ⟨42, 0⟩ [recW 0, recW 1, recW 2]).2.1.length
      = [recW 0, recW 1, recW 2].length ∧
     (writeSplits cfgBase ⟨42, 0⟩ [recW 0, recW 1, recW 2]).1.length
      = ⌊([recW 0, recW 1, recW 2].length : Rat) * cfgBase.trainSplit⌋.toNat) :=
  ⟨by with_unfolding_all decide, by with_unfolding_all decide,
   (writeSplits_spec cfgBase ⟨42, 0⟩ [recW 0, recW 1, recW 2]
      (by with_unfolding_all decide) (by with_unfolding_all decide)).2.2⟩

theorem routeRecord_frac_zero (cfg : DatasetConfig) (h : cfg.heldOutFrac = 0)
    (r : PyRandom) : (routeRecord cfg r).1 = false := by
  unfold routeRecord
  cases hE : cfg.heldOutEnabled with
  | false => simp [hE]
  | true =>
    simp only [hE, if_true, decide_eq_false_iff_not, not_lt, h]
    exact randomUnit_nonneg r

theorem processSamples_heldOut_frac_zero (cfg : DatasetConfig)
    (h : cfg.heldOutFrac = 0) :
    ∀ (l : List TaskSample) (r : PyRandom) (samples heldOut : List Record) res,
      processSamples cfg l r samples heldOut = .ok res → res.2.1 = heldOut := by
  intro l
  induction l with
  | nil =>
    intro r s hs res hres
    obtain rfl : (s, hs, r) = res := by simpa [processSamples] using hres
    rfl
  | cons x xs ih =>
    intro r s hs res hres
    simp only [processSamples] at hres
    cases htr : toRecord cfg x with
    | error e => rw [htr] at hres; exact absurd hres (by simp)
    | ok record =>
      rw [htr, routeRecord_frac_zero cfg h r] at hres
      simp only [Bool.false_eq_true, if_false] at hres
      exact ih _ _ _ _ hres

theorem runTask_heldOut_frac_zero (cfg : DatasetConfig) (task : BaseTask)
    (h : cfg.heldOutFrac = 0) :
    ∀ (n index : Nat) (r : PyRandom) (samples heldOut : List Record) res,
      runTask cfg task n index r samples heldOut = .ok res → res.2.1 = heldOut := by
  intro n
  induction n with
  | zero =>
    intro index r s hs res hres
    obtain rfl : (s, hs, r, index) = res := by simpa [runTask] using hres
    rfl
  | succ n ih =>
    intro index r s hs res hres
    simp only [runTask] at hres
    cases hps : processSamples cfg (task.generateSamples
        { index := index, outputDir := cfg.outputDir
          taskConfig := task.config, datasetName := cfg.namePref } r).1
        (task.generateSamples
        { index := index, outputDir := cfg.outputDir
          taskConfig := task.config, datasetName := cfg.namePref } r).2 s hs with
    | error e => rw [hps] at hres; exact absurd hres (by simp)
    | ok p =>
      obtain ⟨s', hs', r2⟩ := p
      rw [hps] at hres
      have hmid := processSamples_heldOut_frac_zero cfg h _ _ _ _ _ hps
      simp only at hmid
      subst hmid
      exact ih _ _ _ _ _ hres

theorem runTaskCounts_heldOut_frac_zero (cfg : DatasetConfig) (ts : List BaseTask)
    (h : cfg.heldOutFrac = 0) :
    ∀ (tcs : List (String × Nat)) (index : Nat) (r : PyRandom)
      (samples heldOut : List Record) res,
      runTaskCounts cfg ts tcs index r samples heldOut = .ok res → res.2.1 = heldOut := by
  intro tcs
  induction tcs with
  | nil =>
    intro index r s hs res hres
    obtain rfl : (s, hs, r, index) = res := by simpa [runTaskCounts] using hres
    rfl
  | cons p rest ih =>
    intro index r s hs res hres
    obtain ⟨ty, count⟩ := p
    simp only [runTaskCounts] at hres
    split at hres
    · exact absurd hres (by simp)
    · rename_i task hf
      split at hres
      · exact absurd hres (by simp)
      · rename_i s' hs' r' index' hrt
        have hmid := runTask_heldOut_frac_zero cfg task h _ _ _ _ _ _ hrt
        simp only at hmid
        subst hmid
        exact ih _ _ _ _ _ hres

theorem writeSplits_len_sum (cfg : DatasetConfig) (r : PyRandom) (samples : List Record) :
    (writeSplits cfg r samples).1.length + (writeSplits cfg r samples).2.1.length
      = samples.length := by
  simp only [writeSplits, List.length_take, List.length_drop, length_pyShuffle]
  omega

/-- C3: with held-out sampling enabled, the routing step consumes exactly one
uniform draw from the shared stream per record — whatever the outcome — and
routes to the held-out set iff the draw is strictly below `held_out_ratio`;
in particular with `held_out_ratio = 0` no `held_out.jsonl` is written and
every sample lands in the main set (data.jsonl is exactly train plus val). -/
theorem heldOut_draw_per_sample (cfg : DatasetConfig) (ts : List BaseTask)
    (r : PyRandom) (hE : cfg.heldOutEnabled = true) :
    routeRecord cfg r
      = (decide ((randomUnit r).1 < cfg.heldOutFrac), (randomUnit r).2) ∧
    (cfg.heldOutFrac = 0 →
      heldOutFileOf (mkBuilder cfg ts) = none ∧
      (buildLens (mkBuilder cfg ts)).all (fun p => p.1 == p.2.1 + p.2.2) = true) := by
  constructor
  · simp [routeRecord, hE]
  · intro h0
    unfold heldOutFileOf buildLens DatasetBuilder.build
    cases hrc : runTaskCounts (mkBuilder cfg ts).config (mkBuilder cfg ts).tasks
        (mkBuilder cfg ts).config.taskCounts 0 (mkBuilder cfg ts).rng [] [] with
    | error e => simp
    | ok q =>
      obtain ⟨samples, heldOut, r', index'⟩ := q
      have hho : heldOut = [] :=
        runTaskCounts_heldOut_frac_zero (mkBuilder cfg ts).config
          (mkBuilder cfg ts).tasks h0 _ _ _ _ _ _ hrc
      subst hho
      have hsum := writeSplits_len_sum (mkBuilder cfg ts).config r' samples
      simp [Option.all, hsum]

/-- C3 witness: held-out enabled at ratio zero on a concrete builder. -/
theorem heldOut_draw_per_sample_witness :
    cfgH0.heldOutEnabled = true ∧
    routeRecord cfgH0 ⟨42, 0⟩
      = (decide ((randomUnit ⟨42, 0⟩).1 < cfgH0.heldOutFrac), (randomUnit ⟨42, 0⟩).2) ∧
    heldOutFileOf (mkBuilder cfgH0 [taskA]) = none ∧
    (buildLens (mkBuilder cfgH0 [taskA])).all (fun p => p.1 == p.2.1 + p.2.2) = true :=
  ⟨rfl, (heldOut_draw_per_sample cfgH0 [taskA] ⟨42, 0⟩ rfl).1,
   (heldOut_draw_per_sample cfgH0 [taskA] ⟨42, 0⟩ rfl).2 rfl⟩

theorem findTask_mem {ts : List BaseTask} {ty : String} {t : BaseTask}
    (h : findTask ts ty = some t) : t ∈ ts := by
  unfold findTask at h
  exact List.mem_reverse.mp (List.mem_of_find?_eq_some h)

theorem processSamples_ok (cfg : DatasetConfig) :
    ∀ (l : List TaskSample) (r : PyRandom) (samples heldOut : List Record),
      (∀ s ∈ l, ∃ rc, toRecord cfg s = .ok rc) →
      ∃ res, processSamples cfg l r samples heldOut = .ok res := by
  intro l
  induction l with
  | nil => intro r s hs _; exact ⟨_, rfl⟩
  | cons x xs ih =>
    intro r s hs hwf
    obtain ⟨rcd, hrcd⟩ := hwf x (List.mem_cons_self x xs)
    have hwf' : ∀ a ∈ xs, ∃ rc, toRecord cfg a = .ok rc :=
      fun a ha => hwf a (List.mem_cons_of_mem _ ha)
    simp only [processSamples, hrcd]
    cases hroute : (routeRecord cfg r).1 with
    | true => simp only [hroute, if_true]; exact ih _ _ _ hwf'
    | false => simp only [hroute, Bool.false_eq_true, if_false]; exact ih _ _ _ hwf'

theorem runTask_ok (cfg : DatasetConfig) (task : BaseTask)
    (hwf : ∀ (ctx : TaskContext) (r : PyRandom),
      ∀ s ∈ (task.generateSamples ctx r).1, ∃ rc, toRecord cfg s = .ok rc) :
    ∀ (n index : Nat) (r : PyRandom) (samples heldOut : List Record),
      ∃ res, runTask cfg task n index r samples heldOut = .ok res := by
  intro n
  induction n with
  | zero => intro index r s hs; exact ⟨_, rfl⟩
  | succ n ih =>
    intro index r s hs
    simp only [runTask]
    obtain ⟨res1, hres1⟩ := processSamples_ok cfg
      (task.generateSamples ⟨index, cfg.outputDir, task.config, cfg.namePref⟩ r).1
      (task.generateSamples ⟨index, cfg.outputDir, task.config, cfg.namePref⟩ r).2
      s hs (hwf _ _)
    obtain ⟨s', hs', r2⟩ := res1
    simp only [hres1]
    exact ih _ _ _ _

theorem build_error_of_runTaskCounts (b : DatasetBuilder) (e : BuildError)
    (h : runTaskCounts b.config b.tasks b.config.taskCounts 0 b.rng [] [] = .error e) :
    b.build = .error e := by
  unfold DatasetBuilder.build
  rw [h]

/-- C6: a task type in `task_counts` that is absent from the builder's task
set makes `build()` raise `ValueError` naming that type (given that the
types listed before it are known and every generated sample converts to a
record); the error return means no data file is produced. -/
theorem build_unknown_task_type (cfg : DatasetConfig) (ts : List BaseTask)
    (pre post : List (String × Nat)) (ty : String) (cnt : Nat)
    (hsplit : cfg.taskCounts = pre ++ (ty, cnt) :: post)
    (hpre : ∀ p ∈ pre, (findTask ts p.1).isSome)
    (hunknown : findTask ts ty = none)
    (hwf : ∀ t ∈ ts, ∀ (ctx : TaskContext) (r : PyRandom),
      ∀ s ∈ (t.generateSamples ctx r).1, ∃ rc, toRecord cfg s = .ok rc) :
    (mkBuilder cfg ts).build = .error (.unknownTaskType ty) := by
  have key : ∀ (pre' : List (String × Nat)) (index : Nat) (r : PyRandom)
      (samples heldOut : List Record),
      (∀ p ∈ pre', (findTask ts p.1).isSome) →
      runTaskCounts cfg ts (pre' ++ (ty, cnt) :: post) index r samples heldOut
        = .error (.unknownTaskType ty) := by
    intro pre'
    induction pre' with
    | nil =>
      intro index r s hs _
      simp only [List.nil_append, runTaskCounts, hunknown]
    | cons p rest ih =>
      intro index r s hs hp
      obtain ⟨ty0, c0⟩ := p
      obtain ⟨task, htask⟩ :=
        Option.isSome_iff_exists.mp (hp _ (List.mem_cons_self _ _))
      simp only [List.cons_append, runTaskCounts, htask]
      obtain ⟨res1, hres1⟩ :=
        runTask_ok cfg task (hwf task (findTask_mem htask)) c0 index r s hs
      obtain ⟨s', hs', r', index'⟩ := res1
      simp only [hres1]
      exact ih _ _ _ _ (fun q hq => hp q (List.mem_cons_of_mem _ hq))
  apply build_error_of_runTaskCounts
  show runTaskCounts cfg ts cfg.taskCounts 0 ⟨cfg.seed, 0⟩ [] []
    = .error (.unknownTaskType ty)
  rw [hsplit]
  exact key pre 0 ⟨cfg.seed, 0⟩ [] [] hpre

/-- C6 witness: a config whose second quota entry names an unknown type. -/
theorem build_unknown_task_type_witness :
    cfg6.taskCounts = [("click-day", 1)] ++ ("nope", 1) :: [] ∧
    (∀ p ∈ [("click-day", (1 : Nat))], (findTask [taskA] p.1).isSome) ∧
    findTask [taskA] "nope" = none ∧
    (mkBuilder cfg6 [taskA]).build = .error (.unknownTaskType "nope") :=
  ⟨by rfl, by decide, by rfl,
   build_unknown_task_type cfg6 [taskA] [("click-day", 1)] [] "nope" 1 (by rfl)
     (by decide) (by rfl)
     (by
       intro t ht ctx r s hs
       simp only [List.mem_singleton] at ht
       subst ht
       simp only [taskA, List.mem_singleton] at hs
       subst hs
       exact ⟨_, by with_unfolding_all rfl⟩)⟩

theorem appendTests_congr (c1 c2 : DatasetConfig) (hT : c1.testCount = c2.testCount)
    (testDir : String) :
    ∀ (l : List TestCase) (recs : List TestRecord) (raws : List TestCase),
      appendTests c1 testDir l recs raws = appendTests c2 testDir l recs raws := by
  intro l
  induction l with
  | nil => intro recs raws; rfl
  | cons tc rest ih =>
    intro recs raws
    simp only [appendTests, hT]
    by_cases hle : c2.testCount ≤ recs.length
    · simp [hle]
    · simp only [hle, if_false]
      cases htr : testToRecord tc testDir with
      | error e => simp [htr]
      | ok record => simp only [htr]; exact ih _ _

theorem buildTestsLoop_congr (c1 c2 : DatasetConfig)
    (hT : c1.testCount = c2.testCount) (hN : c1.namePref = c2.namePref)
    (tasks : List BaseTask) (taskTypes : List String) (testDir : String) :
    ∀ (fuel index taskIdx : Nat) (r : PyRandom)
      (recs : List TestRecord) (raws : List TestCase),
      buildTestsLoop c1 tasks taskTypes testDir fuel index taskIdx r recs raws
        = buildTestsLoop c2 tasks taskTypes testDir fuel index taskIdx r recs raws := by
  intro fuel
  induction fuel with
  | zero =>
    intro index taskIdx r recs raws
    simp only [buildTestsLoop, hT]
  | succ fuel ih =>
    intro index taskIdx r recs raws
    simp only [buildTestsLoop, hT, hN]
    by_cases hlt : recs.length < c2.testCount
    · simp only [hlt, if_true]
      rw [appendTests_congr c1 c2 hT testDir]
      cases hap : appendTests c2 testDir _ recs raws with
      | error e => simp [hap]
      | ok p =>
        obtain ⟨recs', raws'⟩ := p
        simp only [hap]
        exact ih _ _ _ _ _
    · simp [hlt]

theorem annotSelection_congr (c1 c2 : DatasetConfig)
    (hA : c1.annotEnabled = c2.annotEnabled) (hF : c1.annotFrac = c2.annotFrac)
    (testDir : String) (raws : List TestCase) (nRecs : Nat) :
    annotSelection c1 testDir raws nRecs = annotSelection c2 testDir raws nRecs := by
  unfold annotSelection
  rw [hA, hF]

theorem filtered_taskTypes_eq (tcs : List (String × Nat)) (p : String → Bool) :
    (((tcs.filter (fun q => p q.1)).map Prod.fst).filter p)
      = ((tcs.map Prod.fst).filter p) := by
  induction tcs with
  | nil => rfl
  | cons x xs ih =>
    by_cases hx : p x.1
    · simp [List.filter_cons, hx, ih]
    · simp [List.filter_cons, hx, ih]

/-- C10: `build_tests()` never raises on an unknown task type — it behaves
exactly as if `task_counts` were silently filtered to the known types — and
when no configured type is known it returns immediately, generating nothing
and not writing `test.json`. -/
theorem buildTests_filters_unknown (cfg : DatasetConfig) (ts : List BaseTask)
    (fuel : Nat) :
    (mkBuilder cfg ts).buildTests fuel
      = (mkBuilder { cfg with taskCounts :=
          cfg.taskCounts.filter (fun p => (findTask ts p.1).isSome) } ts).buildTests fuel ∧
    ((cfg.taskCounts.map Prod.fst).filter (fun ty => (findTask ts ty).isSome) = [] →
      (mkBuilder cfg ts).buildTests fuel
        = some (.ok { testRecords := [], testJsonWritten := false, annotatedPaths := [] })) := by
  constructor
  · unfold DatasetBuilder.buildTests
    simp only [mkBuilder]
    rw [filtered_taskTypes_eq cfg.taskCounts (fun ty => (findTask ts ty).isSome)]
    by_cases hempty :
        ((cfg.taskCounts.map Prod.fst).filter (fun ty => (findTask ts ty).isSome)).isEmpty
    · simp only [hempty, if_true]
    · simp only [hempty, if_false]
      simp only [buildTestsLoop_congr cfg
          { cfg with taskCounts := cfg.taskCounts.filter (fun p => (findTask ts p.1).isSome) }
          rfl rfl,
        annotSelection_congr cfg
          { cfg with taskCounts := cfg.taskCounts.filter (fun p => (findTask ts p.1).isSome) }
          rfl rfl]
  · intro hempty
    unfold DatasetBuilder.buildTests
    simp only [mkBuilder]
    rw [hempty]
    simp

/-- C10 witness: a config referencing only an unknown type makes
`build_tests` return immediately with nothing generated. -/
theorem buildTests_filters_unknown_witness :
    ((cfgNope.taskCounts.map Prod.fst).filter
        (fun ty => (findTask [taskA] ty).isSome) = []) ∧
    (mkBuilder cfgNope [taskA]).buildTests 5
      = some (.ok { testRecords := [], testJsonWritten := false, annotatedPaths := [] }) :=
  ⟨by decide, (buildTests_filters_unknown cfgNope [taskA] 5).2 (by decide)⟩

theorem getD_mod_mem (l : List String) (hne : l ≠ []) (k : Nat) :
    l.getD (k % l.length) "" ∈ l := by
  have hlen : 0 < l.length := List.length_pos.mpr hne
  have hk : k % l.length < l.length := Nat.mod_lt _ hlen
  rw [List.getD_eq_getElem l "" hk]
  exact List.getElem_mem hk

theorem appendTests_ok (cfg : DatasetConfig) (testDir : String) :
    ∀ (l : List TestCase) (recs : List TestRecord) (raws : List TestCase),
      (∀ tc ∈ l, ∃ rc, testToRecord tc testDir = .ok rc) →
      recs.length ≤ cfg.testCount →
      ∃ recs' raws', appendTests cfg testDir l recs raws = .ok (recs', raws') ∧
        recs'.length = min cfg.testCount (recs.length + l.length) := by
  intro l
  induction l with
  | nil =>
    intro recs raws _ hle
    exact ⟨recs, raws, rfl, by simp; omega⟩
  | cons tc rest ih =>
    intro recs raws hwf hle
    by_cases hfull : cfg.testCount ≤ recs.length
    · refine ⟨recs, raws, ?_, ?_⟩
      · simp only [appendTests]
        rw [if_pos hfull]
      · omega
    · obtain ⟨rc, hrc⟩ := hwf tc (List.mem_cons_self _ _)
      obtain ⟨recs', raws', happ, hlen⟩ := ih (recs ++ [rc]) (raws ++ [tc])
        (fun a ha => hwf a (List.mem_cons_of_mem _ ha)) (by simp; omega)
      refine ⟨recs', raws', ?_, ?_⟩
      · simp only [appendTests]
        rw [if_neg hfull, hrc]
        exact happ
      · simp only [List.length_append, List.length_singleton, List.length_cons,
          List.length_nil] at hlen ⊢
        rw [hlen]
        congr 1
        omega

theorem buildTestsLoop_ok (cfg : DatasetConfig) (tasks : List BaseTask)
    (taskTypes : List String) (testDir : String)
    (hne : taskTypes ≠ [])
    (H : ∀ ty ∈ taskTypes, ∀ (ctx : TaskContext) (r : PyRandom),
      (((findTask tasks ty).getD default).generateTests ctx r).1 ≠ [] ∧
      ∀ tc ∈ (((findTask tasks ty).getD default).generateTests ctx r).1,
        ∃ rc, testToRecord tc testDir = .ok rc) :
    ∀ (fuel index taskIdx : Nat) (r : PyRandom) (recs : List TestRecord)
      (raws : List TestCase),
      recs.length ≤ cfg.testCount →
      cfg.testCount - recs.length ≤ fuel →
      ∃ recs' raws' r',
        buildTestsLoop cfg tasks taskTypes testDir fuel index taskIdx r recs raws
          = some (.ok (recs', raws', r')) ∧ recs'.length = cfg.testCount := by
  intro fuel
  induction fuel with
  | zero =>
    intro index taskIdx r recs raws hle hfuel
    refine ⟨recs, raws, r, ?_, by omega⟩
    simp only [buildTestsLoop]
    rw [if_neg (by omega)]
  | succ fuel ih =>
    intro index taskIdx r recs raws hle hfuel
    by_cases hlt : recs.length < cfg.testCount
    · obtain ⟨hne2, hwf2⟩ := H (taskTypes.getD (taskIdx % taskTypes.length) "")
        (getD_mod_mem taskTypes hne taskIdx)
        ⟨index, testDir,
          ((findTask tasks (taskTypes.getD (taskIdx % taskTypes.length) "")).getD
            default).config, cfg.namePref⟩ r
      obtain ⟨recs', raws', happ, hlen⟩ :=
        appendTests_ok cfg testDir _ recs raws hwf2 hle
      have hpos : 0 < (((findTask tasks
          (taskTypes.getD (taskIdx % taskTypes.length) "")).getD default).generateTests
            ⟨index, testDir,
              ((findTask tasks (taskTypes.getD (taskIdx % taskTypes.length) "")).getD
                default).config, cfg.namePref⟩ r).1.length :=
        List.length_pos.mpr hne2
      obtain ⟨recs'', raws'', r'', hloop, hfin⟩ := ih (index + 1) (taskIdx + 1) _
        recs' raws' (by omega) (by omega)
      refine ⟨recs'', raws'', r'', ?_, hfin⟩
      simp only [buildTestsLoop]
      rw [if_pos hlt, happ]
      exact hloop
    · refine ⟨recs, raws, r, ?_, by omega⟩
      simp only [buildTestsLoop]
      rw [if_neg hlt]

/-- C4: under the collaborator contract that every `generate_tests` call
returns at least one convertible item, the round-robin loop of
`build_tests()` terminates within `test_count` outer iterations and collects
exactly `test_count` records; on the concrete two-task instance with
`test_count = 10` it yields exactly ten items, five from each type, in
alternating order (showing that the rotation resumes rather than
restarts). -/
theorem buildTests_round_robin (b : DatasetBuilder) (fuel : Nat)
    (hne : (b.config.taskCounts.map Prod.fst).filter
      (fun ty => (findTask b.tasks ty).isSome) ≠ [])
    (hfuel : b.config.testCount ≤ fuel)
    (H : ∀ ty ∈ (b.config.taskCounts.map Prod.fst).filter
      (fun ty => (findTask b.tasks ty).isSome),
      ∀ (ctx : TaskContext) (r : PyRandom),
        (((findTask b.tasks ty).getD default).generateTests ctx r).1 ≠ [] ∧
        ∀ tc ∈ (((findTask b.tasks ty).getD default).generateTests ctx r).1,
          ∃ rc, testToRecord tc (b.config.outputDir ++ "/test") = .ok rc) :
    testLenOf (b.buildTests fuel) = some (b.config.testCount, true) ∧
    testIdsOf ((mkBuilder cfgT [taskA, taskB]).buildTests 10)
      = ["a", "b", "a", "b", "a", "b", "a", "b", "a", "b"] := by
  constructor
  · obtain ⟨recs', raws', r', hloop, hfin⟩ :=
      buildTestsLoop_ok b.config b.tasks _ _ hne H fuel 0 0 b.rng [] []
        (Nat.zero_le _) (by simpa using hfuel)
    have hempty : ((b.config.taskCounts.map Prod.fst).filter
        (fun ty => (findTask b.tasks ty).isSome)).isEmpty = false := by
      simpa [List.isEmpty_iff] using hne
    simp only [DatasetBuilder.buildTests, hempty, Bool.false_eq_true, if_false]
    rw [hloop]
    simp [testLenOf, hfin]
  · with_unfolding_all decide

/-- C4 witness: ten test cases from two alternating one-item task types. -/
theorem buildTests_round_robin_witness :
    testLenOf ((mkBuilder cfgT [taskA, taskB]).buildTests 10)
      = some (cfgT.testCount, true) ∧
    testIdsOf ((mkBuilder cfgT [taskA, taskB]).buildTests 10)
      = ["a", "b", "a", "b", "a", "b", "a", "b", "a", "b"] :=
  buildTests_round_robin (mkBuilder cfgT [taskA, taskB]) 10 (by decide) (by decide)
    (by
      intro ty hty ctx r
      have hty' : ty ∈ ["click-day", "click-month"] := hty
      simp only [List.mem_cons, List.mem_singleton, List.not_mem_nil, or_false] at hty'
      rcases hty' with h | h
      · subst h
        refine ⟨?_, ?_⟩
        · show ([tcA] : List TestCase) ≠ []
          simp
        · intro tc htc
          have htc' : tc ∈ [tcA] := htc
          simp only [List.mem_singleton] at htc'
          subst htc'
          exact ⟨_, by with_unfolding_all rfl⟩
      · subst h
        refine ⟨?_, ?_⟩
        · show ([tcB] : List TestCase) ≠ []
          simp
        · intro tc htc
          have htc' : tc ∈ [tcB] := htc
          simp only [List.mem_singleton] at htc'
          subst htc'
          exact ⟨_, by with_unfolding_all rfl⟩)

theorem strStartsWith_append_self (s t : String) : strStartsWith s (s ++ t) = true := by
  unfold strStartsWith
  rw [String.data_append]
  exact List.isPrefixOf_iff_prefix.mpr ⟨t.data, rfl⟩

theorem strStartsWith_append2 (s t u : String) : strStartsWith s (s ++ t ++ u) = true := by
  unfold strStartsWith
  simp only [String.data_append, List.append_assoc]
  exact List.isPrefixOf_iff_prefix.mpr ⟨t.data ++ u.data, rfl⟩

/-- C5 (counterexample): the annotated subset size is not
`ceil(test_count * annotation_ratio)` (minimum 1) — with ten test cases and
ratio 1/4 the code computes `max(1, int(10 * 0.25)) = 2` and annotates the
two indices 0 and 5, while the claimed formula gives
`max(1, ceil(10 * 0.25)) = 3`. -/
theorem annot_count_not_ceil :
    (annotIndices 10 (1 / 4)).length = 2 ∧
    annotIndices 10 (1 / 4) = [0, 5] ∧
    max 1 ⌈(10 : Rat) * (1 / 4)⌉.toNat = 3 := by
  refine ⟨?_, ?_, ?_⟩ <;> with_unfolding_all decide

/-- C5 (amended): the annotation phase selects the evenly spaced indices
`range(0, n, step)` with `step = max(1, n // max(1, floor(n * ratio)))`, so
the selected count is `ceil(n / step)` — at least 1 and all indices in
range; with `test_count = 20` and ratio 0.1 exactly the indices 0 and 10 are
selected; every annotated copy is written under `annotated/` with an
`_annotated.png` suffix, a path distinct from any original screenshot (which
never lives under `annotated/`). -/
theorem annotIndices_spec (n : Nat) (frac : Rat) (hn : 0 < n) :
    (annotIndices n frac).length
      = (n + max 1 (n / max 1 ⌊(n : Rat) * frac⌋.toNat) - 1)
        / max 1 (n / max 1 ⌊(n : Rat) * frac⌋.toNat) ∧
    1 ≤ (annotIndices n frac).length ∧
    (∀ k ∈ annotIndices n frac, k < n) ∧
    annotIndices 20 (mkRat 1 10) = [0, 10] ∧
    (∀ (cfg : DatasetConfig) (testDir : String) (raws : List TestCase) (m : Nat),
      ∀ p ∈ annotSelection cfg testDir raws m,
        strStartsWith (testDir ++ "/annotated/") p = true ∧
        ∀ tc ∈ raws,
          strStartsWith (testDir ++ "/annotated/") tc.screenshot = false →
            p ≠ tc.screenshot) := by
  refine ⟨?_, ?_, ?_, ?_, ?_⟩
  · simp [annotIndices]
  · have hstep : 0 < max 1 (n / max 1 ⌊(n : Rat) * frac⌋.toNat) :=
      Nat.lt_of_lt_of_le Nat.zero_lt_one (le_max_left _ _)
    simp only [annotIndices, List.length_map, List.length_range]
    rw [Nat.one_le_div_iff hstep]
    omega
  · intro k hk
    simp only [annotIndices, List.mem_map, List.mem_range] at hk
    obtain ⟨i, hi, rfl⟩ := hk
    have hstep : 1 ≤ max 1 (n / max 1 ⌊(n : Rat) * frac⌋.toNat) := le_max_left _ _
    have h3 : (i + 1) * max 1 (n / max 1 ⌊(n : Rat) * frac⌋.toNat)
        ≤ n + max 1 (n / max 1 ⌊(n : Rat) * frac⌋.toNat) - 1 :=
      (Nat.le_div_iff_mul_le (by omega)).mp hi
    have h4 : (i + 1) * max 1 (n / max 1 ⌊(n : Rat) * frac⌋.toNat)
        = i * max 1 (n / max 1 ⌊(n : Rat) * frac⌋.toNat)
          + max 1 (n / max 1 ⌊(n : Rat) * frac⌋.toNat) := by ring
    omega
  · with_unfolding_all decide
  · intro cfg testDir raws m p hp
    unfold annotSelection at hp
    split at hp
    · rw [List.mem_filterMap] at hp
      obtain ⟨idx, hidx, hf⟩ := hp
      cases hr : raws[idx]? with
      | none => rw [hr] at hf; exact absurd hf (by simp)
      | some tc0 =>
        rw [hr] at hf
        have hp' : testDir ++ "/annotated/" ++ tc0.testId ++ "_annotated.png" = p := by
          simpa using hf
        subst hp'
        refine ⟨strStartsWith_append2 _ _ _, ?_⟩
        intro tc htc hscr heq
        rw [← heq] at hscr
        rw [strStartsWith_append2] at hscr
        exact Bool.true_eq_false.mp hscr
    · exact absurd hp (by simp)

/-- C5 witness: twenty test cases at ratio 0.1 select indices 0 and 10. -/
theorem annotIndices_spec_witness :
    0 < 20 ∧ annotIndices 20 (mkRat 1 10) = [0, 10] ∧
      1 ≤ (annotIndices 20 (mkRat 1 10)).length :=
  ⟨by decide, (annotIndices_spec 20 (mkRat 1 10) (by decide)).2.2.2.1,
   (annotIndices_spec 20 (mkRat 1 10) (by decide)).2.1⟩

theorem roundtrip_axis (p : Int) (d : Nat) (hd1 : 1 ≤ d) (hd2 : d ≤ 2 * RU_MAX)
    (hp0 : 0 ≤ p) (hp1 : p ≤ (d : Int) - 1) :
    (denormAxis (normAxis p d) d - p).natAbs ≤ 1 := by
  have hRU : ((RU_MAX : Nat) : Rat) = 1000 := by norm_num [RU_MAX]
  have hd2' : (d : Rat) ≤ 2000 := by
    have : (d : Nat) ≤ 2000 := by simpa [RU_MAX] using hd2
    exact_mod_cast this
  have hdQ : (0 : Rat) < (d : Rat) := by exact_mod_cast hd1
  have hpQ : (0 : Rat) ≤ (p : Rat) := by exact_mod_cast hp0
  have hpd : (p : Rat) ≤ (d : Rat) - 1 := by exact_mod_cast hp1
  set x : Rat := (p : Rat) * 1000 / (d : Rat) with hxdef
  have hx0 : 0 ≤ x := by
    rw [hxdef]
    positivity
  have hdne : (d : Rat) ≠ 0 := ne_of_gt hdQ
  have hxhi : x ≤ 1000 - 1000 / (d : Rat) := by
    rw [hxdef]
    have hfd : (1000 / (d : Rat)) * d = 1000 := div_mul_cancel₀ _ hdne
    rw [div_le_iff₀ hdQ, sub_mul, hfd]
    linarith
  have hhalf : (1000 : Rat) / d ≥ 1 / 2 := by
    rw [ge_iff_le, div_le_div_iff₀ (by norm_num) hdQ]
    linarith
  set n : Int := round x with hndef
  have hn0 : (0 : Int) ≤ n := by
    rw [hndef, round_eq]
    have : (0 : Rat) ≤ x + 1 / 2 := by linarith
    exact Int.floor_nonneg.mpr this
  have hn1000 : n ≤ 1000 := by
    rw [hndef, round_eq]
    have hle : x + 1 / 2 ≤ 1000 := by linarith
    calc ⌊x + 1 / 2⌋ ≤ ⌊(1000 : Rat)⌋ := Int.floor_le_floor hle
      _ = 1000 := by norm_num
  have hRUi : ((RU_MAX : Nat) : Int) = 1000 := by norm_num [RU_MAX]
  have hclamp : normAxis p d = n := by
    unfold normAxis
    rw [hRU, ← hxdef, ← hndef, hRUi]
    omega
  have habs1 : |x - (n : Rat)| ≤ 1 / 2 := by
    rw [hndef]
    exact abs_sub_round x
  set q : Int := round ((n : Rat) * d / 1000) with hqdef
  have habs2 : |(n : Rat) * d / 1000 - (q : Rat)| ≤ 1 / 2 := by
    rw [hqdef]
    exact abs_sub_round _
  have hxdp : x * d / 1000 = (p : Rat) := by
    rw [hxdef]
    field_simp
  have hsplit : (n : Rat) * d / 1000 - p = ((n : Rat) - x) * ((d : Rat) / 1000) := by
    rw [hxdef]
    field_simp
    ring
  have hd1000 : (0 : Rat) ≤ (d : Rat) / 1000 := by positivity
  have hd1000le : (d : Rat) / 1000 ≤ 2 := by
    rw [div_le_iff₀ (by norm_num : (0:Rat) < 1000)]
    linarith
  have hkey : |(q : Rat) - p| ≤ 3 / 2 := by
    have h1 : (q : Rat) - p = ((q : Rat) - (n : Rat) * d / 1000) + ((n : Rat) * d / 1000 - p) := by
      ring
    rw [h1]
    calc |((q : Rat) - (n : Rat) * d / 1000) + ((n : Rat) * d / 1000 - p)|
        ≤ |(q : Rat) - (n : Rat) * d / 1000| + |(n : Rat) * d / 1000 - p| := abs_add _ _
      _ ≤ 1 / 2 + |(n : Rat) - x| * ((d : Rat) / 1000) := by
          have e1 : |(q : Rat) - (n : Rat) * d / 1000| ≤ 1 / 2 := by
            rw [abs_sub_comm]
            exact habs2
          have e2 : |(n : Rat) * d / 1000 - p| = |(n : Rat) - x| * ((d : Rat) / 1000) := by
            rw [hsplit, abs_mul, abs_of_nonneg hd1000]
          rw [e2]
          linarith
      _ ≤ 1 / 2 + (1 / 2) * 2 := by
          have e3 : |(n : Rat) - x| ≤ 1 / 2 := by
            rw [abs_sub_comm]
            exact habs1
          have e4 : |(n : Rat) - x| * ((d : Rat) / 1000) ≤ (1 / 2) * 2 := by
            apply mul_le_mul e3 hd1000le hd1000 (by norm_num)
          linarith
      _ = 3 / 2 := by norm_num
  have hq : denormAxis (normAxis p d) d = q := by
    rw [hclamp]
    unfold denormAxis
    rw [hRU, ← hqdef]
  rw [hq]
  by_contra hcon
  push_neg at hcon
  have h2 : (2 : Nat) ≤ (q - p).natAbs := hcon
  have h3 : (2 : Rat) ≤ |(q : Rat) - (p : Rat)| := by
    calc (2 : Rat) ≤ (((q - p).natAbs : Nat) : Rat) := by exact_mod_cast h2
      _ = |(q : Rat) - (p : Rat)| := by
          rw [Int.cast_natAbs, Int.cast_abs]
          push_cast
          ring_nf
  linarith

/-- C7 (counterexample): for image dimension 4000 (larger than twice
`RU_MAX`) the round trip loses more than one pixel per axis: the in-bounds
pixel (2, 2) normalizes to (1, 1) and denormalizes to (4, 4). -/
theorem roundtrip_fails_at_4000 :
    (0 : Int) ≤ 2 ∧ (2 : Int) ≤ 4000 - 1 ∧
    pixel_from_normalized (normalize_coord (2, 2) (4000, 4000)) (4000, 4000) = (4, 4) ∧
    ¬(((pixel_from_normalized (normalize_coord (2, 2) (4000, 4000))
        (4000, 4000)).1 - 2).natAbs ≤ 1) := by
  refine ⟨by decide, by decide, ?_, ?_⟩ <;> with_unfolding_all decide

/-- C7 (amended): for every image size whose dimensions are at most
`2 * RU_MAX` (which covers the actual 1920x1080 screenshots) and every pixel
within bounds, `denormalize(normalize(p, size), size)` differs from `p` by
at most one unit per axis. -/
theorem roundtrip_within_one (p : Int × Int) (size : Nat × Nat)
    (hw1 : 1 ≤ size.1) (hw2 : size.1 ≤ 2 * RU_MAX)
    (hh1 : 1 ≤ size.2) (hh2 : size.2 ≤ 2 * RU_MAX)
    (hx0 : 0 ≤ p.1) (hx1 : p.1 ≤ (size.1 : Int) - 1)
    (hy0 : 0 ≤ p.2) (hy1 : p.2 ≤ (size.2 : Int) - 1) :
    ((pixel_from_normalized (normalize_coord p size) size).1 - p.1).natAbs ≤ 1 ∧
    ((pixel_from_normalized (normalize_coord p size) size).2 - p.2).natAbs ≤ 1 :=
  ⟨roundtrip_axis p.1 size.1 hw1 hw2 hx0 hx1,
   roundtrip_axis p.2 size.2 hh1 hh2 hy0 hy1⟩

/-- C7 witness: the round trip at pixel (960, 540) of a 1920x1080 image. -/
theorem roundtrip_within_one_witness :
    (1 ≤ 1920 ∧ 1920 ≤ 2 * RU_MAX ∧ 1 ≤ 1080 ∧ 1080 ≤ 2 * RU_MAX) ∧
    ((pixel_from_normalized (normalize_coord (960, 540) (1920, 1080))
        (1920, 1080)).1 - 960).natAbs ≤ 1 ∧
    ((pixel_from_normalized (normalize_coord (960, 540) (1920, 1080))
        (1920, 1080)).2 - 540).natAbs ≤ 1 :=
  ⟨⟨by decide, by decide, by decide, by decide⟩,
   (roundtrip_within_one (960, 540) (1920, 1080) (by decide) (by decide) (by decide)
     (by decide) (by decide) (by decide) (by decide) (by decide)).1,
   (roundtrip_within_one (960, 540) (1920, 1080) (by decide) (by decide) (by decide)
     (by decide) (by decide) (by decide) (by decide) (by decide)).2⟩

theorem toRecord_congr (c1 c2 : DatasetConfig) (hO : c1.outputDir = c2.outputDir)
    (s : TaskSample) : toRecord c1 s = toRecord c2 s := by
  unfold toRecord
  rw [hO]

theorem routeRecord_congr (c1 c2 : DatasetConfig)
    (hE : c1.heldOutEnabled = c2.heldOutEnabled) (hF : c1.heldOutFrac = c2.heldOutFrac)
    (r : PyRandom) : routeRecord c1 r = routeRecord c2 r := by
  unfold routeRecord
  rw [hE, hF]

theorem processSamples_congr (c1 c2 : DatasetConfig)
    (hO : c1.outputDir = c2.outputDir) (hE : c1.heldOutEnabled = c2.heldOutEnabled)
    (hF : c1.heldOutFrac = c2.heldOutFrac) :
    ∀ (l : List TaskSample) (r : PyRandom) (samples heldOut : List Record),
      processSamples c1 l r samples heldOut = processSamples c2 l r samples heldOut := by
  intro l
  induction l with
  | nil => intro r s hs; rfl
  | cons x xs ih =>
    intro r s hs
    simp only [processSamples, toRecord_congr c1 c2 hO, routeRecord_congr c1 c2 hE hF]
    cases htr : toRecord c2 x with
    | error e => rfl
    | ok record =>
      cases hb : (routeRecord c2 r).1 with
      | true => simp only [if_true]; exact ih _ _ _
      | false => simp only [Bool.false_eq_true, if_false]; exact ih _ _ _

theorem runTask_congr (c1 c2 : DatasetConfig)
    (hO : c1.outputDir = c2.outputDir) (hN : c1.namePref = c2.namePref)
    (hE : c1.heldOutEnabled = c2.heldOutEnabled) (hF : c1.heldOutFrac = c2.heldOutFrac)
    (task : BaseTask) :
    ∀ (n index : Nat) (r : PyRandom) (samples heldOut : List Record),
      runTask c1 task n index r samples heldOut
        = runTask c2 task n index r samples heldOut := by
  intro n
  induction n with
  | zero => intro index r s hs; rfl
  | succ n ih =>
    intro index r s hs
    simp only [runTask, hO, hN, processSamples_congr c1 c2 hO hE hF]
    cases hres : processSamples c2
        (task.generateSamples ⟨index, c2.outputDir, task.config, c2.namePref⟩ r).1
        (task.generateSamples ⟨index, c2.outputDir, task.config, c2.namePref⟩ r).2
        s hs with
    | error e => rfl
    | ok p =>
      obtain ⟨s', hs', r2⟩ := p
      exact ih _ _ _ _

theorem runTaskCounts_congr (c1 c2 : DatasetConfig) (ts : List BaseTask)
    (hO : c1.outputDir = c2.outputDir) (hN : c1.namePref = c2.namePref)
    (hE : c1.heldOutEnabled = c2.heldOutEnabled) (hF : c1.heldOutFrac = c2.heldOutFrac) :
    ∀ (tcs : List (String × Nat)) (index : Nat) (r : PyRandom)
      (samples heldOut : List Record),
      runTaskCounts c1 ts tcs index r samples heldOut
        = runTaskCounts c2 ts tcs index r samples heldOut := by
  intro tcs
  induction tcs with
  | nil => intro index r s hs; rfl
  | cons p rest ih =>
    intro index r s hs
    obtain ⟨ty, count⟩ := p
    cases hf : findTask ts ty with
    | none => simp only [runTaskCounts, hf]
    | some task =>
      simp only [runTaskCounts, hf, runTask_congr c1 c2 hO hN hE hF]
      cases hrt : runTask c2 task count index r s hs with
      | error e => rfl
      | ok q =>
        obtain ⟨s', hs', r', index'⟩ := q
        exact ih _ _ _ _

theorem writeSplits_congr (c1 c2 : DatasetConfig) (hS : c1.trainSplit = c2.trainSplit)
    (r : PyRandom) (samples : List Record) :
    writeSplits c1 r samples = writeSplits c2 r samples := by
  unfold writeSplits
  rw [hS]

/-- C1: `build()` is a deterministic function of the seed and of the fields
it reads: the RNG is seeded exactly once from `config.seed` at construction,
and two builders over the same task collaborators whose configurations agree
on seed, quotas, split, held-out policy, output directory and dataset name
produce byte-identical `data.jsonl` and `train.jsonl`. -/
theorem build_reproducible (c1 c2 : DatasetConfig) (ts : List BaseTask)
    (hseed : c1.seed = c2.seed) (htc : c1.taskCounts = c2.taskCounts)
    (hS : c1.trainSplit = c2.trainSplit) (hE : c1.heldOutEnabled = c2.heldOutEnabled)
    (hF : c1.heldOutFrac = c2.heldOutFrac) (hO : c1.outputDir = c2.outputDir)
    (hN : c1.namePref = c2.namePref) :
    (mkBuilder c1 ts).rng = ⟨c1.seed, 0⟩ ∧
    Except.map (fun o => (jsonlBytes o.dataJsonl, jsonlBytes o.trainJsonl))
        (mkBuilder c1 ts).build
      = Except.map (fun o => (jsonlBytes o.dataJsonl, jsonlBytes o.trainJsonl))
        (mkBuilder c2 ts).build := by
  have hbuild : (mkBuilder c1 ts).build = (mkBuilder c2 ts).build := by
    unfold DatasetBuilder.build
    simp only [mkBuilder]
    rw [htc, hseed, runTaskCounts_congr c1 c2 ts hO hN hE hF]
    simp only [writeSplits_congr c1 c2 hS]
  exact ⟨rfl, by rw [hbuild]⟩

/-- C1 witness: two configurations that differ only in fields `build()` does
not read (test count, image format, annotation switch) produce identical
bytes. -/
theorem build_reproducible_witness :
    cfgBase.seed = cfgBase2.seed ∧
    Except.map (fun o => (jsonlBytes o.dataJsonl, jsonlBytes o.trainJsonl))
        (mkBuilder cfgBase [taskA]).build
      = Except.map (fun o => (jsonlBytes o.dataJsonl, jsonlBytes o.trainJsonl))
        (mkBuilder cfgBase2 [taskA]).build :=
  ⟨rfl, (build_reproducible cfgBase cfgBase2 [taskA] rfl rfl rfl rfl rfl rfl rfl).2⟩
